import Mathlib

/-!
Shallow embedding of the QR-reader core (`src/qrscan.js` / `app/js/vendor/qrscan.js`).

The reader is a small event-driven state machine: `scan` activates it and posts
a decode request; the web worker's responses are delivered to
`handleWorkerMessage`; `processDecodedQR` fires the result callback on a
non-empty match list and defers a new `requestNewDecoderTask` via `setTimeout`;
`terminate` kills the worker.  We model the reader state, the deferred task
queue (the pending `setTimeout` callbacks, run in FIFO order), and the
observable effects of each step (callback invocations, messages posted to the
worker, `console.error` reports, and exceptions escaping a handler).
Environmental nondeterminism (what `drawImage`/`getImageData` do on a given
tick) is an explicit `CaptureOutcome` parameter.
-/

namespace QRScan

/-- A media element (video or image): the pixel source.  `width`/`height` are
its intrinsic pixel dimensions, `id` distinguishes distinct DOM elements. -/
structure Source where
  width : Nat
  height : Nat
  id : Nat
deriving DecidableEq

/-- The canvas used as frame buffer: just its `width`/`height` properties. -/
structure Canvas where
  width : Nat
  height : Nat
deriving DecidableEq

/-- A freshly created canvas has the browser-default dimensions 300x150. -/
def canvasDefault : Canvas := ⟨300, 150⟩

/-- The browser environment read by the reader: `window.innerWidth`,
`window.innerHeight`, `window.isMediaStreamAPISupported`, and the results of
`document.querySelector` for `video` and `img`. -/
structure Env where
  innerWidth : Nat
  innerHeight : Nat
  isMediaStreamAPISupported : Bool
  videoElem : Option Source
  imgElem : Option Source
deriving DecidableEq

/-- The mutable fields of a `QRReader` instance: `active`, `webcam`, `canvas`,
`streaming`, the worker handle (`decodingWorker`, modelled by whether it is
non-null), and the stored `onScanComplete` callback (identified by a number). -/
structure ReaderState where
  active : Bool
  webcam : Option Source
  canvas : Option Canvas
  streaming : Bool
  hasWorker : Bool
  onScanComplete : Option Nat
deriving DecidableEq

/-- A deferred `setTimeout` callback: either a deferred
`requestNewDecoderTask`, or the deferred `setPhotoSourceToScan(null, fsp)`
scheduled by `scan`. -/
inductive Deferred where
  | reqTask : Deferred
  | setSourceTask (forSelectedPhotos : Bool) : Deferred
deriving DecidableEq

/-- A reader session: the environment, the reader's fields, and the queue of
pending deferred tasks (FIFO). -/
structure Sys where
  env : Env
  st : ReaderState
  tasks : List Deferred
deriving DecidableEq

/-- The `payload` field of a worker message: for `decoded` messages the worker
sends an array of matches (a match is an array whose index 2 holds the decoded
text); other payloads (e.g. the `init` readiness marker) are non-array objects,
whose `length` property is `undefined`. -/
inductive Payload where
  | matches (ms : List (List String)) : Payload
  | marker (k : Nat) : Payload
deriving DecidableEq

/-- The `data` field of a worker message: `\x7b name, payload \x7d`, either of
which may be absent (`undefined`). -/
structure MsgData where
  name : Option String
  payload : Option Payload
deriving DecidableEq

/-- A raw message as seen by `handleWorkerMessage`: falsy (`null`/`undefined`),
a non-object primitive, or an object whose `data` field may be absent. -/
inductive WorkerMsg where
  | falsy : WorkerMsg
  | nonObject : WorkerMsg
  | object (data : Option MsgData) : WorkerMsg
deriving DecidableEq

/-- Observable effects of one handler/tick execution, in order:
`callbackInvoked cb t` is a call of the stored `onScanComplete` callback with
text `t` (`none` models `undefined`); `requestPosted w h` is a
`postMessage(imgData)` to the worker with a `w` by `h` image;
`consoleError` is a `console.error` diagnostic; `exceptionEscaped` is an
exception propagating out of the handler. -/
inductive Effect where
  | callbackInvoked (cb : Nat) (text : Option String) : Effect
  | requestPosted (w h : Nat) : Effect
  | consoleError : Effect
  | exceptionEscaped : Effect
deriving DecidableEq

/-- What the platform does when `requestNewDecoderTask` tries to capture a
frame on a given tick: success (with or without `imgData.data` present),
failure with `e.name == "NS_ERROR_NOT_AVAILABLE"` (the transient
source-unavailable condition), or any other failure. -/
inductive CaptureOutcome where
  | ok (hasData : Bool) : CaptureOutcome
  | failSourceUnavailable : CaptureOutcome
  | failOther : CaptureOutcome
deriving DecidableEq

/-- `setPhotoSourceToScan(mediaElement, forSelectedPhotos)`: returns
immediately if `webcam` is already set; otherwise binds the given element, or
queries the DOM for a `video` (when the media-stream API is supported and
selected photos were not requested) or an `img`. -/
def setPhotoSourceToScan (env : Env) (mediaElement : Option Source)
    (forSelectedPhotos : Bool) (st : ReaderState) : ReaderState :=
  if st.webcam.isSome then st
  else
    let webcam :=
      match mediaElement with
      | some m => some m
      | none =>
        if !forSelectedPhotos && env.isMediaStreamAPISupported then env.videoElem
        else env.imgElem
    { st with webcam := webcam }

/-- `setCanvas()`: replaces the canvas by a freshly created one (with the
browser-default dimensions) and a fresh 2d context. -/
def setCanvas (st : ReaderState) : ReaderState :=
  { st with canvas := some canvasDefault }

/-- `setCanvasProperties()`: sets the canvas dimensions to
`window.innerWidth` by `window.innerHeight`. -/
def setCanvasProperties (env : Env) (st : ReaderState) : ReaderState :=
  { st with canvas := some ⟨env.innerWidth, env.innerHeight⟩ }

/-- The `QRReader` constructor (the vendor variant's `init`): clears all
fields, runs `setPhotoSourceToScan(mediaElement)`, `setCanvas()`, creates the
worker, and — when the media-stream API is supported — defers
`setCanvasProperties` to the `play` event, otherwise runs it at once. -/
def mkReader (env : Env) (mediaElement : Option Source) : Sys :=
  let st0 : ReaderState :=
    { active := false, webcam := none, canvas := none, streaming := false,
      hasWorker := false, onScanComplete := none }
  let st1 := setPhotoSourceToScan env mediaElement false st0
  let st2 := setCanvas st1
  let st3 := { st2 with hasWorker := true }
  let st4 := if env.isMediaStreamAPISupported then st3 else setCanvasProperties env st3
  { env := env, st := st4, tasks := [] }

/-- The `play` event listener installed by the constructor:
`!this.streaming && this.setCanvasProperties(); this.streaming = true`. -/
def playEvent (s : Sys) : Sys :=
  if s.st.streaming then s
  else { s with st := { setCanvasProperties s.env s.st with streaming := true } }

/-- `requestNewDecoderTask()`: returns if not `active`; otherwise destructures
the canvas, draws the webcam onto it, extracts the image data, and posts it to
the worker.  A `null` canvas or webcam makes the `try` block throw a
`TypeError` (caught, reported, not retried); a capture failure named
`NS_ERROR_NOT_AVAILABLE` is reported and a retry is deferred via `setTimeout`;
any other failure is only reported; a missing `imgData.data` returns silently;
posting with a `null` worker throws a `TypeError` (caught, reported, not
retried). -/
def requestNewDecoderTask (cap : CaptureOutcome) (s : Sys) : Sys × List Effect :=
  if !s.st.active then (s, [])
  else
    match s.st.canvas with
    | none => (s, [Effect.consoleError])
    | some c =>
      match s.st.webcam with
      | none => (s, [Effect.consoleError])
      | some _ =>
        match cap with
        | CaptureOutcome.failSourceUnavailable =>
          ({ s with tasks := s.tasks ++ [Deferred.reqTask] }, [Effect.consoleError])
        | CaptureOutcome.failOther => (s, [Effect.consoleError])
        | CaptureOutcome.ok hasData =>
          if !hasData then (s, [])
          else if s.st.hasWorker then
            (s, [Effect.requestPosted c.width c.height])
          else (s, [Effect.consoleError])

/-- `processDecodedQR(result)`: an absent payload throws (`result.length` on
`undefined`); a non-array payload has an `undefined` length, so the guard
fails; a non-empty match array extracts `result[0][2]`, clears `active`, and
invokes the stored callback if set.  In every non-throwing branch a new
`requestNewDecoderTask` is deferred via `setTimeout`. -/
def processDecodedQR (p : Option Payload) (s : Sys) : Sys × List Effect :=
  match p with
  | none => (s, [Effect.exceptionEscaped])
  | some (Payload.marker _) => ({ s with tasks := s.tasks ++ [Deferred.reqTask] }, [])
  | some (Payload.matches ms) =>
    if 0 < ms.length then
      let text := (ms.get? 0).bind fun m => m.get? 2
      let effs :=
        match s.st.onScanComplete with
        | some cb => [Effect.callbackInvoked cb text]
        | none => []
      ({ s with st := { s.st with active := false }, tasks := s.tasks ++ [Deferred.reqTask] },
        effs)
    else
      ({ s with tasks := s.tasks ++ [Deferred.reqTask] }, [])

/-- `handleWorkerMessage(message)`: `validateMessage` reports and discards a
falsy or non-object message; destructuring `message.data` throws when `data`
is absent; then the handler dispatches on `name` — only `"decoded"` reaches
`processDecodedQR`, while `"init"` and unknown names are logged and ignored. -/
def handleWorkerMessage (msg : WorkerMsg) (s : Sys) : Sys × List Effect :=
  match msg with
  | WorkerMsg.falsy => (s, [Effect.consoleError])
  | WorkerMsg.nonObject => (s, [Effect.consoleError])
  | WorkerMsg.object none => (s, [Effect.exceptionEscaped])
  | WorkerMsg.object (some d) =>
    match d.name with
    | some n => if n = "decoded" then processDecodedQR d.payload s else (s, [])
    | none => (s, [])

/-- `scan(onComplete, scanForSelectedPhotos)`: sets `active`, replaces the
canvas, stores the callback, defers `setPhotoSourceToScan(null, fsp)` via
`setTimeout`, and synchronously runs `requestNewDecoderTask`. -/
def scanOp (cb : Nat) (forSelectedPhotos : Bool) (cap : CaptureOutcome)
    (s : Sys) : Sys × List Effect :=
  requestNewDecoderTask cap { s with st := { setCanvas s.st with active := true, onScanComplete := some cb }, tasks := s.tasks ++ [Deferred.setSourceTask forSelectedPhotos] }

/-- `terminate()`: kills the worker and nulls the handle.  Nothing else is
touched. -/
def terminateOp (s : Sys) : Sys :=
  { s with st := { s.st with hasWorker := false } }

/-- Run the oldest pending deferred task (the next `setTimeout` callback to
fire), if any. -/
def runTask (cap : CaptureOutcome) (s : Sys) : Sys × List Effect :=
  match s.tasks with
  | [] => (s, [])
  | Deferred.reqTask :: rest => requestNewDecoderTask cap { s with tasks := rest }
  | Deferred.setSourceTask fsp :: rest =>
    ({ s with st := setPhotoSourceToScan s.env none fsp s.st, tasks := rest }, [])

/-- One event-loop step: either the worker delivers a message, or a pending
timer fires (with the given capture outcome if it is a decode request). -/
inductive Event where
  | deliver (msg : WorkerMsg) : Event
  | tick (cap : CaptureOutcome) : Event
deriving DecidableEq

/-- Execute one event. -/
def step (e : Event) (s : Sys) : Sys × List Effect :=
  match e with
  | Event.deliver msg => handleWorkerMessage msg s
  | Event.tick cap => runTask cap s

/-- Execute a sequence of events, accumulating the effects in order. -/
def run : List Event → Sys → Sys × List Effect
  | [], s => (s, [])
  | e :: es, s =>
    let p := step e s
    let q := run es p.1
    (q.1, p.2 ++ q.2)

/-- Is this effect a `postMessage` to the decoder worker? -/
def isPost (e : Effect) : Bool :=
  match e with
  | Effect.requestPosted _ _ => true
  | _ => false

/-- Number of decode requests posted in an effect list. -/
def countPosts (effs : List Effect) : Nat := (effs.filter isPost).length

/-- The callback invocations in an effect list, in order, as
(callback id, text) pairs. -/
def callbackInvocations (effs : List Effect) : List (Nat × Option String) :=
  effs.filterMap fun e =>
    match e with
    | Effect.callbackInvoked cb t => some (cb, t)
    | _ => none

/-- Is this task a deferred `requestNewDecoderTask`? -/
def isReqTask (t : Deferred) : Bool :=
  match t with
  | Deferred.reqTask => true
  | _ => false

/-- Number of deferred decode-request tasks in the timer queue. -/
def reqTasksPending (ts : List Deferred) : Nat := (ts.filter isReqTask).length

/-- The worker message carrying a decoded-matches response. -/
def decodedMsg (ms : List (List String)) : WorkerMsg :=
  WorkerMsg.object (some ⟨some "decoded", some (Payload.matches ms)⟩)

/-- `n` deliveries of an empty result (a decoded response with no matches). -/
def emptyEvents (n : Nat) : List Event :=
  List.replicate n (Event.deliver (decodedMsg []))

/-- A concrete environment: an 800x600 window, media-stream API unsupported,
no `video` element, an `img` element present. -/
def envEx : Env :=
  { innerWidth := 800, innerHeight := 600, isMediaStreamAPISupported := false,
    videoElem := none, imgElem := some ⟨100, 100, 1⟩ }

/-- A concrete 100x100 media element. -/
def srcEx : Source := ⟨100, 100, 0⟩

/-- A concrete reader session in the middle of an active scan: source bound,
canvas sized 800x600, worker live, callback 7 stored, no pending timers. -/
def sysEx : Sys :=
  { env := envEx,
    st := { active := true, webcam := some srcEx, canvas := some ⟨800, 600⟩,
            streaming := false, hasWorker := true, onScanComplete := some 7 },
    tasks := [] }


/-! ### Shared helper lemmas -/

/-- `requestNewDecoderTask` never mutates the reader's fields, only the task
queue. -/
lemma requestNewDecoderTask_st (cap : CaptureOutcome) (s : Sys) :
    (requestNewDecoderTask cap s).1.st = s.st := by
  unfold requestNewDecoderTask
  repeat' split
  all_goals rfl

/-- The guard `if (this.webcam) return` in `setPhotoSourceToScan`. -/
lemma setPhotoSourceToScan_bound (env : Env) (me : Option Source) (fsp : Bool)
    (st : ReaderState) (h : st.webcam.isSome = true) :
    setPhotoSourceToScan env me fsp st = st := by
  simp [setPhotoSourceToScan, h]

lemma countPosts_append (a b : List Effect) :
    countPosts (a ++ b) = countPosts a + countPosts b := by
  simp [countPosts, List.filter_append]

lemma reqTasksPending_append (a b : List Deferred) :
    reqTasksPending (a ++ b) = reqTasksPending a + reqTasksPending b := by
  simp [reqTasksPending, List.filter_append]

/-! ### C4 — what `terminate` does -/

/-- Claim C4 counterexample: from an active scan with a stored callback,
`terminate()` neither resets the scan state to idle nor clears the stored
result callback, contradicting the claim that after `terminate` the state is
Idle and the callback is cleared. -/
theorem terminate_does_not_reset_scan_state :
    ¬((terminateOp sysEx).st.active = false ∧
      (terminateOp sysEx).st.onScanComplete = none) := by decide

/-- Claim C4 (amended): after `terminate()` the decode worker is closed
(idempotently), but the `active` flag and the stored callback are left exactly
as they were. -/
theorem terminate_only_closes_worker (s : Sys) :
    (terminateOp s).st.hasWorker = false
    ∧ (terminateOp s).st.active = s.st.active
    ∧ (terminateOp s).st.onScanComplete = s.st.onScanComplete
    ∧ terminateOp (terminateOp s) = terminateOp s := by
  refine ⟨rfl, rfl, rfl, rfl⟩

/-! ### C5 — decoded text comes from the first match's index 2 -/

/-- Claim C5: when a decoded response with a non-empty match list `ms` is
processed during an active scan, the stored callback receives exactly
`ms[0][2]`, and the effects depend on the match list only through `ms[0][2]`
(the other fields are not examined). -/
theorem decoded_text_is_third_field_of_first_match (s : Sys) (cb : Nat)
    (ms : List (List String)) (_hact : s.st.active = true)
    (hcb : s.st.onScanComplete = some cb) (hne : ms ≠ []) :
    (handleWorkerMessage (decodedMsg ms) s).2
      = [Effect.callbackInvoked cb ((ms.get? 0).bind fun m => m.get? 2)]
    ∧ ∀ ms2 : List (List String), ms2 ≠ [] →
        (ms2.get? 0).bind (fun m => m.get? 2) = (ms.get? 0).bind (fun m => m.get? 2) →
        (handleWorkerMessage (decodedMsg ms2) s).2 = (handleWorkerMessage (decodedMsg ms) s).2 := by
  have key : ∀ l : List (List String), l ≠ [] →
      (handleWorkerMessage (decodedMsg l) s).2
        = [Effect.callbackInvoked cb ((l.get? 0).bind fun m => m.get? 2)] := by
    intro l hl
    simp [handleWorkerMessage, decodedMsg, processDecodedQR, List.length_pos.mpr hl, hcb]
  refine ⟨key ms hne, fun ms2 h2 heq => ?_⟩
  rw [key ms2 h2, key ms hne, heq]

/-- Witness for C5 at a concrete input: match `["geom1","geom2","T"]` yields
callback text `"T"`. -/
theorem decoded_text_is_third_field_witness :
    sysEx.st.active = true ∧ sysEx.st.onScanComplete = some 7 ∧
    (handleWorkerMessage (decodedMsg [["geom1", "geom2", "T"]]) sysEx).2
      = [Effect.callbackInvoked 7 (some "T")] := by
  refine ⟨rfl, rfl, ?_⟩
  have h := (decoded_text_is_third_field_of_first_match sysEx 7 [["geom1", "geom2", "T"]]
    rfl rfl (by decide)).1
  simpa using h

/-! ### C6 — transient SourceUnavailable capture failure -/

/-- Claim C6: during an active cycle, a capture failure with the transient
`NS_ERROR_NOT_AVAILABLE` condition schedules a fresh cycle attempt (a deferred
`requestNewDecoderTask`), posts no request, invokes no callback, lets no
exception escape, and leaves the reader fields (in particular `active`)
unchanged, so scanning resumes on the next cycle. -/
theorem source_unavailable_retries_cycle (s : Sys) (c : Canvas) (w : Source)
    (hact : s.st.active = true) (hcv : s.st.canvas = some c)
    (hwc : s.st.webcam = some w) :
    requestNewDecoderTask CaptureOutcome.failSourceUnavailable s
      = ({ s with tasks := s.tasks ++ [Deferred.reqTask] }, [Effect.consoleError])
    ∧ callbackInvocations (requestNewDecoderTask CaptureOutcome.failSourceUnavailable s).2 = []
    ∧ countPosts (requestNewDecoderTask CaptureOutcome.failSourceUnavailable s).2 = 0
    ∧ (requestNewDecoderTask CaptureOutcome.failSourceUnavailable s).1.st = s.st := by
  have h1 : requestNewDecoderTask CaptureOutcome.failSourceUnavailable s
      = ({ s with tasks := s.tasks ++ [Deferred.reqTask] }, [Effect.consoleError]) := by
    simp [requestNewDecoderTask, hact, hcv, hwc]
  refine ⟨h1, ?_, ?_, requestNewDecoderTask_st _ _⟩
  · rw [h1]; rfl
  · rw [h1]; rfl

/-- Witness for C6 at the concrete active session `sysEx`. -/
theorem source_unavailable_retries_cycle_witness :
    sysEx.st.active = true ∧ sysEx.st.canvas = some ⟨800, 600⟩ ∧
    sysEx.st.webcam = some srcEx ∧
    requestNewDecoderTask CaptureOutcome.failSourceUnavailable sysEx
      = ({ sysEx with tasks := [Deferred.reqTask] }, [Effect.consoleError]) := by
  refine ⟨rfl, rfl, rfl, ?_⟩
  have h := (source_unavailable_retries_cycle sysEx ⟨800, 600⟩ srcEx rfl rfl rfl).1
  simpa using h

/-! ### C7 — non-transient capture failures -/

/-- Claim C7 counterexample: at the concrete active session `sysEx`, a capture
failure that is not `SourceUnavailable` is reported but NO fresh cycle attempt
is scheduled (the task queue stays empty), contradicting the claim that the
cycle is still retried. -/
theorem other_capture_failure_not_retried :
    requestNewDecoderTask CaptureOutcome.failOther sysEx = (sysEx, [Effect.consoleError])
    ∧ reqTasksPending (requestNewDecoderTask CaptureOutcome.failOther sysEx).1.tasks = 0 := by
  decide

/-- Claim C7 (amended): a capture failure during an active cycle whose kind is
not `SourceUnavailable` is reported diagnostically and does not propagate to
the caller, but the cycle is NOT retried: the state (including the deferred
task queue) is left unchanged, so no fresh cycle attempt is scheduled. -/
theorem other_capture_failure_logged_only (s : Sys) (c : Canvas) (w : Source)
    (hact : s.st.active = true) (hcv : s.st.canvas = some c)
    (hwc : s.st.webcam = some w) :
    requestNewDecoderTask CaptureOutcome.failOther s = (s, [Effect.consoleError]) := by
  simp [requestNewDecoderTask, hact, hcv, hwc]

/-- Witness for the amended C7 at the concrete active session `sysEx`. -/
theorem other_capture_failure_logged_only_witness :
    sysEx.st.active = true ∧ sysEx.st.canvas = some ⟨800, 600⟩ ∧
    sysEx.st.webcam = some srcEx ∧
    requestNewDecoderTask CaptureOutcome.failOther sysEx = (sysEx, [Effect.consoleError]) :=
  ⟨rfl, rfl, rfl, other_capture_failure_logged_only sysEx ⟨800, 600⟩ srcEx rfl rfl rfl⟩

/-! ### C8 — canvas sizing -/

/-- Claim C8 counterexample: constructing a reader over a 100x100 source in an
800x600 window (media-stream API unsupported, so sizing happens at once)
leaves the canvas sized 800x600, not to the source's pixel dimensions. -/
theorem canvas_not_sized_to_source :
    (mkReader envEx (some srcEx)).st.canvas ≠ some ⟨srcEx.width, srcEx.height⟩ := by
  decide

/-- Claim C8 (amended): `setCanvasProperties` sizes the canvas to the
window's `innerWidth`/`innerHeight`, not to the Source's dimensions — both on
the immediate path (media-stream API unsupported) and on the deferred `play`
path. -/
theorem canvas_sized_to_window (env : Env) (me : Option Source)
    (h : env.isMediaStreamAPISupported = false) :
    (mkReader env me).st.canvas = some ⟨env.innerWidth, env.innerHeight⟩
    ∧ ∀ (env2 : Env) (me2 : Option Source), env2.isMediaStreamAPISupported = true →
        (playEvent (mkReader env2 me2)).st.canvas
          = some ⟨env2.innerWidth, env2.innerHeight⟩ := by
  constructor
  · simp [mkReader, setCanvasProperties, setCanvas, setPhotoSourceToScan, h]
  · intro env2 me2 h2
    simp [mkReader, playEvent, setCanvasProperties, setCanvas, setPhotoSourceToScan, h2]

/-- Witness for the amended C8 at the concrete environment `envEx`. -/
theorem canvas_sized_to_window_witness :
    envEx.isMediaStreamAPISupported = false ∧
    (mkReader envEx (some srcEx)).st.canvas = some ⟨800, 600⟩ := by
  refine ⟨rfl, ?_⟩
  have h := (canvas_sized_to_window envEx (some srcEx) rfl).1
  simpa using h

/-! ### C9 — malformed worker messages -/

/-- Claim C9 counterexample: an object message whose `data` field is absent
(or `null`) passes `validateMessage` but then throws while destructuring
`message.data` — the exception escapes the handler, contradicting the claim
that such messages are reported and discarded with no exception escaping. -/
theorem message_without_data_field_throws :
    handleWorkerMessage (WorkerMsg.object none) sysEx = (sysEx, [Effect.exceptionEscaped]) := by
  decide

/-- Claim C9 (amended): a falsy or non-object message is reported via
`console.error` and discarded without reaching the decode branches, without
invoking the callback, and without disrupting the state; an object message
whose `data` lacks a `name` falls through to the default branch and is
likewise discarded; but an object message with no `data` field throws, and the
exception escapes the handler. -/
theorem malformed_message_handling (s : Sys) :
    handleWorkerMessage WorkerMsg.falsy s = (s, [Effect.consoleError])
    ∧ handleWorkerMessage WorkerMsg.nonObject s = (s, [Effect.consoleError])
    ∧ handleWorkerMessage (WorkerMsg.object none) s = (s, [Effect.exceptionEscaped])
    ∧ ∀ p : Option Payload,
        handleWorkerMessage (WorkerMsg.object (some ⟨none, p⟩)) s = (s, []) := by
  exact ⟨rfl, rfl, rfl, fun p => rfl⟩

/-! ### C10 — a bound webcam is never reassigned -/

/-- Claim C10: once the reader's `webcam` field holds a source, every call to
`setPhotoSourceToScan` — with any media element and any value of the
selected-photos flag, including the deferred call scheduled by `scan` and any
other deferred task — leaves the whole reader state unchanged, so the bound
source is never reassigned. -/
theorem bound_webcam_never_reassigned (env : Env) (src : Source) (me : Option Source)
    (fsp : Bool) (st : ReaderState) (h : st.webcam = some src) :
    setPhotoSourceToScan env me fsp st = st
    ∧ ∀ (s : Sys) (cap : CaptureOutcome), s.st.webcam = some src →
        (runTask cap s).1.st.webcam = some src := by
  constructor
  · exact setPhotoSourceToScan_bound env me fsp st (by simp [h])
  · intro s cap hw
    cases hts : s.tasks with
    | nil => simpa [runTask, hts] using hw
    | cons t rest =>
      cases t with
      | reqTask =>
        have hst := requestNewDecoderTask_st cap { s with tasks := rest }
        simp only [runTask, hts]
        rw [hst]
        exact hw
      | setSourceTask fsp2 =>
        have hb := setPhotoSourceToScan_bound s.env none fsp2 s.st (by simp [hw])
        simp only [runTask, hts]
        rw [hb]
        exact hw

/-- Witness for C10: with `srcEx` already bound in `sysEx`, a later
`setPhotoSourceToScan` (here the deferred form: no element, selected-photos
true) changes nothing. -/
theorem bound_webcam_never_reassigned_witness :
    sysEx.st.webcam = some srcEx ∧
    setPhotoSourceToScan sysEx.env none true sysEx.st = sysEx.st :=
  ⟨rfl, (bound_webcam_never_reassigned sysEx.env srcEx none true sysEx.st rfl).1⟩

/-! ### C1 — the result callback across a response sequence -/

/-- Claim C1 counterexample: from the active session `sysEx`, delivering a
second decoded response with a non-empty match list after the first invokes
the callback a second time — neither `handleWorkerMessage` nor
`processDecodedQR` re-checks the `active` flag, and the stored callback is
never cleared — contradicting the claim that the callback must not fire
again. -/
theorem second_decoded_response_refires_callback :
    callbackInvocations (run [Event.deliver (decodedMsg [["g", "h", "A"]]),
        Event.deliver (decodedMsg [["g", "h", "B"]])] sysEx).2
      = [(7, some "A"), (7, some "B")] := by
  decide

/-- Claim C1 (amended): for a sequence of empty results followed by a single
decoded response with non-empty matches, delivered during an active scan, the
stored callback fires exactly once, with that response's first-match text
`ms[0][2]`; the exactly-once guarantee holds only while no further decoded
response is delivered (a further non-empty decoded response fires the callback
again). -/
theorem onResult_fires_once_per_scan (n : Nat) (ms : List (List String)) (cb : Nat)
    (s : Sys) (hact : s.st.active = true) (hcb : s.st.onScanComplete = some cb)
    (hne : ms ≠ []) :
    callbackInvocations (run (emptyEvents n ++ [Event.deliver (decodedMsg ms)]) s).2
      = [(cb, (ms.get? 0).bind fun m => m.get? 2)] := by
  induction n generalizing s with
  | zero =>
    simp only [emptyEvents, List.replicate, List.nil_append]
    simp [run, step, handleWorkerMessage, decodedMsg, processDecodedQR,
      List.length_pos.mpr hne, hcb, callbackInvocations]
  | succ k ih =>
    have hrep : emptyEvents (k + 1)
        = Event.deliver (decodedMsg []) :: emptyEvents k := by
      simp [emptyEvents, List.replicate_succ]
    rw [hrep, List.cons_append]
    have hstep : step (Event.deliver (decodedMsg [])) s
        = ({ s with tasks := s.tasks ++ [Deferred.reqTask] }, []) := by
      simp [step, handleWorkerMessage, decodedMsg, processDecodedQR]
    simp only [run, hstep]
    rw [List.nil_append]
    exact ih { s with tasks := s.tasks ++ [Deferred.reqTask] } hact hcb

/-- Witness for the amended C1: three empty results then
`[["g","h","HELLO"]]` fire the callback exactly once with `"HELLO"`. -/
theorem onResult_fires_once_per_scan_witness :
    sysEx.st.active = true ∧ sysEx.st.onScanComplete = some 7 ∧
    callbackInvocations (run (emptyEvents 3 ++
        [Event.deliver (decodedMsg [["g", "h", "HELLO"]])]) sysEx).2
      = [(7, some "HELLO")] := by
  refine ⟨rfl, rfl, ?_⟩
  have h := onResult_fires_once_per_scan 3 [["g", "h", "HELLO"]] 7 sysEx rfl rfl (by decide)
  simpa using h

/-! ### C3 — responses delivered after terminate -/

/-- Claim C3 counterexample: a decoded response delivered after `terminate()`
still fires the result callback — the handler has no state-is-Active check,
and `terminate` clears neither the `active` flag nor the callback —
contradicting the claim that no callback fires after `stop`/`terminate`. -/
theorem response_after_terminate_fires_callback :
    callbackInvocations (run [Event.deliver (decodedMsg [["g", "h", "HELLO"]])]
        (terminateOp sysEx)).2
      = [(7, some "HELLO")]
    ∧ (terminateOp sysEx).st.hasWorker = false := by
  decide

/-- Every step preserves the absence of a worker handle. -/
lemma step_hasWorker (e : Event) (s : Sys) :
    (step e s).1.st.hasWorker = s.st.hasWorker := by
  cases e <;>
    unfold step handleWorkerMessage runTask processDecodedQR requestNewDecoderTask
      setPhotoSourceToScan <;>
    repeat' split
  all_goals rfl

/-- With no worker handle, no step can post a decode request. -/
lemma step_posts_noWorker (e : Event) (s : Sys) (h : s.st.hasWorker = false) :
    countPosts (step e s).2 = 0 := by
  cases e <;>
    unfold step handleWorkerMessage runTask processDecodedQR requestNewDecoderTask
      setPhotoSourceToScan <;>
    repeat' split
  all_goals simp_all [countPosts, isPost]

/-- Claim C3 (amended): after `terminate()` no decode request is ever posted
to the worker, whatever responses are delivered or timers fire afterwards (the
worker handle is gone, so the posting branch is unreachable); the callback,
however, can still fire, as the handler does not check the scan state. -/
theorem no_request_posted_after_terminate (s : Sys) (es : List Event) :
    countPosts (run es (terminateOp s)).2 = 0 := by
  suffices h : ∀ (es : List Event) (t : Sys), t.st.hasWorker = false →
      countPosts (run es t).2 = 0 by
    exact h es (terminateOp s) rfl
  intro es
  induction es with
  | nil => intro t ht; simp [run, countPosts]
  | cons e es2 ih =>
    intro t ht
    simp only [run, countPosts_append]
    rw [step_posts_noWorker e t ht, ih (step e t).1 (by rw [step_hasWorker]; exact ht)]

/-! ### C2 — at most one outstanding decode request -/

/-- The reader session together with a ghost counter of outstanding decode
requests: requests posted to the worker minus decoded-kind responses received
back. -/
structure GSys where
  sys : Sys
  outstanding : Nat
deriving DecidableEq

/-- Does this event deliver a decoded-kind response, i.e. one that answers an
outstanding decode request?  (`name = "decoded"` with a present payload.) -/
def consumesB (e : Event) : Bool :=
  match e with
  | Event.deliver (WorkerMsg.object (some d)) =>
    (d.name == some "decoded") && d.payload.isSome
  | _ => false

/-- One ghost step: run the event and update the outstanding counter — a
consumed response decrements it, each posted request increments it. -/
def gstep (e : Event) (g : GSys) : GSys :=
  { sys := (step e g.sys).1,
    outstanding := (g.outstanding - (if consumesB e then 1 else 0))
      + countPosts (step e g.sys).2 }

/-- Run a sequence of ghost steps. -/
def grun : List Event → GSys → GSys
  | [], g => g
  | e :: es, g => grun es (gstep e g)

/-- A well-behaved decoder: it delivers a decoded-kind response only while a
request is actually outstanding (each response answers the in-flight
request). -/
def validRunB : GSys → List Event → Bool
  | _, [] => true
  | g, e :: es =>
    (!consumesB e || decide (1 ≤ g.outstanding)) && validRunB (gstep e g) es

/-- The inductive invariant: outstanding requests plus deferred
`requestNewDecoderTask` timers never exceed one. -/
def Inv (g : GSys) : Prop :=
  g.outstanding + reqTasksPending g.sys.tasks ≤ 1

instance (g : GSys) : Decidable (Inv g) := by
  unfold Inv
  infer_instance

/-- `requestNewDecoderTask` posts at most one request or schedules at most one
retry, never both. -/
lemma requestNewDecoderTask_bound (cap : CaptureOutcome) (s : Sys) :
    countPosts (requestNewDecoderTask cap s).2
      + reqTasksPending (requestNewDecoderTask cap s).1.tasks
      ≤ 1 + reqTasksPending s.tasks := by
  unfold requestNewDecoderTask
  repeat' split
  all_goals
    simp_all [countPosts, isPost, reqTasksPending_append, reqTasksPending, isReqTask]
  all_goals omega

/-- Running one deferred task consumes its queue slot: posts plus remaining
deferred requests never exceed the deferred requests before the tick. -/
lemma runTask_bound (cap : CaptureOutcome) (s : Sys) :
    countPosts (runTask cap s).2 + reqTasksPending (runTask cap s).1.tasks
      ≤ reqTasksPending s.tasks := by
  cases hts : s.tasks with
  | nil => simp [runTask, hts, countPosts]
  | cons t rest =>
    cases t with
    | reqTask =>
      have hb := requestNewDecoderTask_bound cap { s with tasks := rest }
      simp only [runTask, hts]
      have hp : reqTasksPending (Deferred.reqTask :: rest) = 1 + reqTasksPending rest := by
        simp [reqTasksPending, isReqTask, Nat.add_comm]
      rw [hp]
      simpa using hb
    | setSourceTask fsp =>
      simp [runTask, hts, countPosts, reqTasksPending, isReqTask]

/-- A delivered message posts nothing, and adds at most one deferred request —
and that only when it is a decoded-kind response. -/
lemma handleWorkerMessage_bound (msg : WorkerMsg) (s : Sys) :
    countPosts (handleWorkerMessage msg s).2 = 0
    ∧ reqTasksPending (handleWorkerMessage msg s).1.tasks
      ≤ reqTasksPending s.tasks
        + (if consumesB (Event.deliver msg) then 1 else 0) := by
  unfold handleWorkerMessage processDecodedQR consumesB
  repeat' split
  all_goals
    simp_all [countPosts, isPost, reqTasksPending_append, reqTasksPending, isReqTask]

/-- One ghost step preserves the invariant, provided the decoder is
well-behaved on this event. -/
lemma gstep_preserves_Inv (e : Event) (g : GSys) (hI : Inv g)
    (hc : consumesB e = true → 1 ≤ g.outstanding) : Inv (gstep e g) := by
  unfold Inv at hI ⊢
  cases e with
  | tick cap =>
    have hb := runTask_bound cap g.sys
    have hcon : consumesB (Event.tick cap) = false := rfl
    simp only [gstep, step, hcon, if_neg Bool.false_ne_true, Nat.sub_zero]
    omega
  | deliver msg =>
    have hb := handleWorkerMessage_bound msg g.sys
    by_cases hcm : consumesB (Event.deliver msg) = true
    · have h1 := hc hcm
      simp only [gstep, step, hcm, if_pos] at *
      omega
    · have hcm2 : consumesB (Event.deliver msg) = false := by
        revert hcm; cases consumesB (Event.deliver msg) <;> simp
      simp only [gstep, step, hcm2, if_neg Bool.false_ne_true, Nat.sub_zero] at *
      omega

/-- The invariant is preserved along any well-behaved run. -/
lemma grun_preserves_Inv (es : List Event) (g : GSys) (hI : Inv g)
    (hV : validRunB g es = true) : Inv (grun es g) := by
  induction es generalizing g with
  | nil => simpa [grun] using hI
  | cons e es2 ih =>
    simp only [validRunB, Bool.and_eq_true] at hV
    obtain ⟨h1, h2⟩ := hV
    refine ih (gstep e g) (gstep_preserves_Inv e g hI ?_) h2
    intro hce
    rw [hce] at h1
    simp only [Bool.not_true, Bool.false_or] at h1
    exact of_decide_eq_true h1

/-- `scan` from a state with no deferred decode request leaves at most one
posted request or deferred retry in total. -/
lemma scanOp_bound (cb : Nat) (sfp : Bool) (cap : CaptureOutcome) (s0 : Sys)
    (h0 : reqTasksPending s0.tasks = 0) :
    countPosts (scanOp cb sfp cap s0).2
      + reqTasksPending (scanOp cb sfp cap s0).1.tasks ≤ 1 := by
  unfold scanOp
  refine le_trans (requestNewDecoderTask_bound cap _) ?_
  have h2 : reqTasksPending [Deferred.setSourceTask sfp] = 0 := rfl
  simp only [reqTasksPending_append, h0, h2]
  omega

/-- Claim C2: starting from any state satisfying the invariant, for every
interleaving of responses and timer ticks in which the decoder answers only
outstanding requests, at most one decode request is outstanding at any time;
`scan` establishes the invariant from any state with no deferred decode
request; and `init` and unknown-kind responses never change the state or post
anything. -/
theorem at_most_one_outstanding_request (g : GSys) (es : List Event)
    (hI : Inv g) (hV : validRunB g es = true) :
    (grun es g).outstanding ≤ 1
    ∧ (∀ (s0 : Sys) (cb : Nat) (sfp : Bool) (cap : CaptureOutcome),
        reqTasksPending s0.tasks = 0 →
        Inv ⟨(scanOp cb sfp cap s0).1, countPosts (scanOp cb sfp cap s0).2⟩)
    ∧ (∀ (s : Sys) (p : Option Payload),
        handleWorkerMessage (WorkerMsg.object (some ⟨some "init", p⟩)) s = (s, []))
    ∧ (∀ (s : Sys) (nm : Option String) (p : Option Payload),
        nm ≠ some "decoded" →
        handleWorkerMessage (WorkerMsg.object (some ⟨nm, p⟩)) s = (s, [])) := by
  refine ⟨?_, ?_, ?_, ?_⟩
  · have h := grun_preserves_Inv es g hI hV
    unfold Inv at h
    omega
  · intro s0 cb sfp cap h0
    have hb := scanOp_bound cb sfp cap s0 h0
    unfold Inv
    simpa using hb
  · intro s p
    have : ("init" = "decoded") = False := by simp
    simp [handleWorkerMessage, this]
  · intro s nm p hnm
    cases nm with
    | none => rfl
    | some n =>
      have hn : ¬(n = "decoded") := fun hh => hnm (by rw [hh])
      simp [handleWorkerMessage, hn]

/-- A concrete ghost state: the active session `sysEx` with one outstanding
request. -/
def gEx : GSys := ⟨sysEx, 1⟩

/-- A concrete well-behaved interleaving: the decoder answers the outstanding
request with an empty result, then the deferred retry fires and posts. -/
def esEx : List Event :=
  [Event.deliver (decodedMsg []), Event.tick (CaptureOutcome.ok true)]

/-- Witness for C2 at the concrete ghost run `gEx`/`esEx`. -/
theorem at_most_one_outstanding_request_witness :
    Inv gEx ∧ validRunB gEx esEx = true ∧ (grun esEx gEx).outstanding ≤ 1 :=
  ⟨by decide, by decide, (at_most_one_outstanding_request gEx esEx (by decide) (by decide)).1⟩

end QRScan
